import Mathlib

/-!
Verification of the `lanista` actor substrate (src/lanista/core.py and
src/lanista/threadactors.py) against its natural-language specification.

The Python classes are shallowly embedded: each method body is translated
into an executable Lean definition over explicit state records; Python
exceptions become an explicit `PyError` sum carried in `Except` results or
in step-outcome inductives; Python `None` returns become `Option.none`;
the stdlib / gevent `Queue` mailboxes become Lean lists (front = oldest).
-/

namespace Lanista

/-- Python-level error conditions raised by the embedded code paths:
`AttributeError` (attribute lookup failure, carrying the attribute name),
`NotImplementedError` (raised by every abstract `_hook` default in core.py),
and `AssertionError` (raised by the overflow check in `Arena.live`,
core.py lines 62-64). -/
inductive PyError
  | attributeError (attr : String)
  | notImplementedError
  | assertionError
  deriving DecidableEq, Repr

/-- Message kinds used for handler lookup in `ThreadActor.handleMessage`
(threadactors.py lines 92-100): `PoisonPill` (threadactors.py 41-45),
the synthetic `UnregisteredMessage` fallback key (threadactors.py 47-48),
and domain-opaque kinds, distinguished here by a natural number tag. -/
inductive MsgKind
  | poisonPill
  | unregisteredMessage
  | other (n : Nat)
  deriving DecidableEq, Repr

/-- `HandlerRegistry` (threadactors.py lines 14-39) is a `dict` subclass
mapping a message kind to a handler; `registry.get(k)` returns the stored
handler or Python `None`.  Embedded as a function into `Option`. -/
def HandlerRegistry (η : Type) := MsgKind → Option η

/-- `HandlerRegistry.__call__(typ)` returns a decorator storing the
function under `typ` (`self[typ] = func`, threadactors.py line 36):
dict assignment, i.e. pointwise function update (last write wins). -/
def HandlerRegistry.register {η : Type} (r : HandlerRegistry η) (k : MsgKind) (h : η) :
    HandlerRegistry η :=
  fun k₂ => if k₂ = k then some h else r k₂

/-- The empty registry: a freshly constructed `HandlerRegistry()`. -/
def HandlerRegistry.empty {η : Type} : HandlerRegistry η := fun _ => none

/-- Handler resolution inside `ThreadActor.handleMessage` (threadactors.py
line 98): `registry.get(message.__class__) or registry.get(UnregisteredMessage)`.
Functions are truthy in Python, so `or` selects the direct entry whenever it
exists and otherwise falls back to the `UnregisteredMessage` entry. -/
def resolve {η : Type} (r : HandlerRegistry η) (k : MsgKind) : Option η :=
  match r k with
  | some h => some h
  | none => r MsgKind.unregisteredMessage

/-- The handler invocations performed by `ThreadActor.handleMessage`
(threadactors.py lines 97-100): if resolution yields a handler it is called
exactly once with `(self, sender, message)`; otherwise nothing runs.
The trace records which handlers are invoked, in order. -/
def handleMessageTrace {η : Type} (r : HandlerRegistry η) (k : MsgKind) : List η :=
  match resolve r k with
  | some h => [h]
  | none => []

/-- C2: with a direct entry for the dispatched kind, exactly that handler is
invoked (not the fallback); with no direct entry but a fallback registered
under `UnregisteredMessage`, exactly the fallback is invoked; with neither,
dispatch is a no-op. -/
theorem C2_dispatch_fallback {η : Type} (r : HandlerRegistry η) (k : MsgKind) :
    (∀ h : η, r k = some h → handleMessageTrace r k = [h]) ∧
    (∀ f : η, r k = none → r MsgKind.unregisteredMessage = some f →
      handleMessageTrace r k = [f]) ∧
    (r k = none → r MsgKind.unregisteredMessage = none →
      handleMessageTrace r k = []) := by
  refine ⟨fun h hd => ?_, fun f hn hf => ?_, fun hn hf => ?_⟩
  · simp [handleMessageTrace, resolve, hd]
  · simp [handleMessageTrace, resolve, hn, hf]
  · simp [handleMessageTrace, resolve, hn, hf]

/-- Concrete witness for C2: a registry with a handler (tagged 0) for kind
`other 0`, a handler (tagged 1) for kind `other 1`, and a fallback
(tagged 9) under `UnregisteredMessage`; dispatching `other 2` invokes
exactly the fallback, dispatching `other 0` invokes exactly handler 0, and
against the registry with no fallback dispatching `other 2` runs nothing. -/
theorem C2_dispatch_fallback_witness :
    let rAB : HandlerRegistry Nat :=
      HandlerRegistry.register
        (HandlerRegistry.register HandlerRegistry.empty (MsgKind.other 0) 0)
        (MsgKind.other 1) 1
    let rFull : HandlerRegistry Nat :=
      HandlerRegistry.register rAB MsgKind.unregisteredMessage 9
    handleMessageTrace rFull (MsgKind.other 2) = [9] ∧
    handleMessageTrace rFull (MsgKind.other 0) = [0] ∧
    handleMessageTrace rAB (MsgKind.other 2) = [] := by
  intro rAB rFull
  refine ⟨?_, ?_, ?_⟩
  · exact (C2_dispatch_fallback rFull (MsgKind.other 2)).2.1 9 (by decide) (by decide)
  · exact (C2_dispatch_fallback rFull (MsgKind.other 0)).1 0 (by decide)
  · exact (C2_dispatch_fallback rAB (MsgKind.other 2)).2.2 (by decide) (by decide)

/-! ### Mailbox

Every actor's mailbox is a stdlib `Queue.Queue` (threadactors.py line 3 and
line 70) or a `gevent.queue.Queue` (core.py lines 2, 72, 221, 289): an
unbounded FIFO whose `get()` with default arguments blocks when the queue is
empty (it waits for an item; it raises nothing) and otherwise removes and
returns the oldest item.  The queue content is embedded as a list with the
oldest element in front. -/

/-- Outcome of one `get()` call on a mailbox: the call either blocks
(empty queue, default blocking `get`), raises an empty-mailbox error, or
returns the oldest envelope together with the remaining queue.  The
`raisesEmpty` outcome exists so that the spec-side contract below shares
this codomain; the source's queues never produce it. -/
inductive GetOutcome (α : Type)
  | blocks
  | raisesEmpty
  | got (e : α) (rest : List α)
  deriving DecidableEq, Repr

/-- `mailbox.get()` as the source performs it (threadactors.py line 126,
core.py line 65): the default blocking call of the stdlib / gevent queue —
blocks on an empty queue, dequeues the oldest envelope otherwise. -/
def mailboxGet {α : Type} : List α → GetOutcome α
  | [] => GetOutcome.blocks
  | e :: rest => GetOutcome.got e rest

/-- The spec's Mailbox contract for `get()` (§4.1): fails with an
`EmptyMailboxError` on an empty mailbox, dequeues the oldest envelope
otherwise.  Stated from the spec's words, for comparison with
`mailboxGet`. -/
def specMailboxGet {α : Type} : List α → GetOutcome α
  | [] => GetOutcome.raisesEmpty
  | e :: rest => GetOutcome.got e rest

/-- Counterexample to C8 as stated: on the empty mailbox the source's
`get()` blocks, which is not the `EmptyMailboxError` outcome the claim
requires — the source and spec contracts differ exactly there. -/
theorem C8_empty_get_counterexample :
    mailboxGet ([] : List Nat) = GetOutcome.blocks ∧
    mailboxGet ([] : List Nat) ≠ GetOutcome.raisesEmpty ∧
    mailboxGet ([] : List Nat) ≠ specMailboxGet ([] : List Nat) := by
  refine ⟨rfl, by decide, by decide⟩

/-- C8 amended: `get()` on an empty mailbox blocks until an envelope
arrives (every receive loop in the source guards the call with an
`empty()` check first); `get()` on a non-empty mailbox removes and
returns the oldest envelope. -/
theorem C8_get_contract {α : Type} (e : α) (rest : List α) :
    mailboxGet ([] : List α) = GetOutcome.blocks ∧
    mailboxGet (e :: rest) = GetOutcome.got e rest :=
  ⟨rfl, rfl⟩

/-! ### Arena receive loop and the overflow check -/

/-- One iteration of the base `Arena.live` loop (core.py lines 59-66) as a
function of the registries and the pending mailbox: if the mailbox is
empty nothing happens; else if strictly more envelopes are pending than
`len(self.agents) + len(self.games)` an `AssertionError` is raised before
any `get()`; else the oldest envelope is dequeued and handed to
`receive`. -/
inductive ArenaStep (ε : Type)
  | idle
  | overflowAssertion
  | processed (e : ε) (rest : List ε)
  deriving DecidableEq, Repr

/-- `Arena.live` loop body, core.py lines 60-66.  `agents` and `games` are
the registries initialised as lists in `Arena.__init__` (core.py 70-71);
only their lengths matter here. -/
def arenaLiveStep {α γ ε : Type} (agents : List α) (games : List γ)
    (mailbox : List ε) : ArenaStep ε :=
  if mailbox.isEmpty then ArenaStep.idle
  else if mailbox.length > agents.length + games.length then
    ArenaStep.overflowAssertion
  else
    match mailbox with
    | [] => ArenaStep.idle
    | e :: rest => ArenaStep.processed e rest

/-- ArenaThread overrides `live` (threadactors.py lines 118-127): its loop
body performs no overflow check at all — whenever the mailbox is
non-empty it dequeues the oldest envelope and hands it to `receive`.
Same codomain as `arenaLiveStep`; the overflow outcome is never
produced. -/
def arenaThreadLiveStep {ε : Type} (mailbox : List ε) : ArenaStep ε :=
  if mailbox.isEmpty then ArenaStep.idle
  else
    match mailbox with
    | [] => ArenaStep.idle
    | e :: rest => ArenaStep.processed e rest

/-- Counterexample to C7 as stated: `ArenaThread` is an Arena and
`ArenaThread.live` is its receive loop, yet with 3 envelopes pending
(more than 2 agents + 0 games) its loop body dequeues and processes the
oldest envelope instead of raising an overflow error. -/
theorem C7_overflow_counterexample :
    arenaThreadLiveStep [0, 1, 2] = ArenaStep.processed 0 [1, 2] ∧
    arenaThreadLiveStep ([0, 1, 2] : List Nat) ≠ ArenaStep.overflowAssertion := by
  exact ⟨rfl, by decide⟩

/-- C7 amended: in the base `Arena.live` receive loop (core.py; the
`ArenaThread.live` override performs no such check), whenever more than
`agents + games` envelopes are pending an `AssertionError` is raised
before any envelope is dequeued; in particular with 2 agents, 0 games and
3 or more pending envelopes. -/
theorem C7_overflow_detection {α γ ε : Type} (agents : List α) (games : List γ)
    (mailbox : List ε) (hlen : mailbox.length > agents.length + games.length) :
    arenaLiveStep agents games mailbox = ArenaStep.overflowAssertion := by
  have hne : ¬ mailbox.isEmpty := by
    cases mailbox with
    | nil => simp at hlen
    | cons e rest => simp [List.isEmpty]
  simp [arenaLiveStep, hne, hlen]

/-- Witness for C7: an Arena with exactly 2 registered agents and 0 games
whose mailbox holds 3 pending envelopes raises the overflow assertion
before processing any of them. -/
theorem C7_overflow_detection_witness :
    arenaLiveStep ["a1", "a2"] ([] : List Nat) [10, 20, 30] =
      ArenaStep.overflowAssertion :=
  C7_overflow_detection ["a1", "a2"] [] [10, 20, 30] (by decide)

/-! ### Pass-through operations and their abstract hook defaults -/

/-- The pass-through operations exposed by Arena (core.py 74-154),
Agent (core.py 223-266) and Game (core.py 315-341), each of which is
specified to delegate to an abstract `_hook`. -/
inductive PassThrough
  | arenaStart | arenaReset | arenaClose | arenaRegisterOp | arenaReceive
  | arenaPrime | arenaStep | arenaPublish | arenaSeed
  | agentReceive | agentLearn | agentPerceiveOp | agentPolicyOp | agentPublishOp
  | gameReceive | gamePublish | gameResetCondition
  deriving DecidableEq, Repr

/-- Result of invoking a pass-through operation on an instance whose hooks
are all left at their defaults.  Every Arena and Agent pass-through calls
its `_hook`, and every default `_hook` raises `NotImplementedError`
(core.py 156-164, 268-272, 359-361); `Game.receive` and
`Game.reset_condition` likewise call their hooks (core.py 321, 341).
`Game.publish` (core.py 323-328) is the exception: its body consists of a
docstring only — it calls nothing and returns None. -/
def passThroughDefault : PassThrough → Except PyError Unit
  | PassThrough.gamePublish => Except.ok ()
  | _ => Except.error PyError.notImplementedError

/-- Counterexample to C5 as stated: `Game.publish` is a pass-through whose
hook is not overridden, yet invoking it silently no-ops (returns None)
instead of failing with `NotImplementedError`. -/
theorem C5_game_publish_counterexample :
    passThroughDefault PassThrough.gamePublish = Except.ok () ∧
    passThroughDefault PassThrough.gamePublish ≠
      Except.error PyError.notImplementedError := by
  exact ⟨rfl, fun h => Except.noConfusion h⟩

/-- C5 amended: every pass-through operation on Arena, Agent and Game other
than `Game.publish` fails with `NotImplementedError` when its hook has not
been overridden; `Game.publish` alone has an empty body and silently
no-ops without ever calling `_publish`. -/
theorem C5_abstract_hook_guard (p : PassThrough) (h : p ≠ PassThrough.gamePublish) :
    passThroughDefault p = Except.error PyError.notImplementedError := by
  cases p <;> first | rfl | exact absurd rfl h

/-- Witness for C5: `Arena.register` and `Game.reset_condition` with
default hooks both fail with `NotImplementedError`. -/
theorem C5_abstract_hook_guard_witness :
    passThroughDefault PassThrough.arenaRegisterOp =
      Except.error PyError.notImplementedError ∧
    passThroughDefault PassThrough.gameResetCondition =
      Except.error PyError.notImplementedError :=
  ⟨C5_abstract_hook_guard PassThrough.arenaRegisterOp (by decide),
   C5_abstract_hook_guard PassThrough.gameResetCondition (by decide)⟩

/-! ### Arena state and `register` -/

/-- The substrate state of an Arena as initialised by `Arena.__init__`
(core.py 68-72): `self.agents = []` and `self.games = []` are plain lists
(the mailbox is carried separately where needed).  Actor references are
represented by their names. -/
structure ArenaState where
  agents : List String
  games : List String
  deriving DecidableEq, Repr

/-- `Arena.register` (core.py 99-106): the body is exactly
`self._register(agent)` — the whole operation is delegated to the domain
hook, which may transform the arena state or raise. -/
def arenaRegister (hook : ArenaState → String → Except PyError ArenaState)
    (st : ArenaState) (a : String) : Except PyError ArenaState :=
  hook st a

/-- Counterexample to C9 as stated: under a legal domain `_register`
override that performs no bookkeeping (returns the state unchanged),
registering agent "a1" into an empty Arena succeeds with "a1" absent
from the agent registry — so the substrate does not insert the agent
independently of the domain hook. -/
theorem C9_register_counterexample :
    arenaRegister (fun st _ => Except.ok st) ⟨[], []⟩ "a1" =
      Except.ok (ArenaState.mk [] []) ∧
    "a1" ∉ (ArenaState.mk [] []).agents := by
  exact ⟨rfl, by decide⟩

/-- C9 amended: `Arena.register(agent)` delegates entirely to the
`_register` hook; the substrate itself inserts nothing into the agent
registry (a plain list in this source, not a name-keyed map), so the
registry after `register` is exactly whatever the hook produced. -/
theorem C9_register_delegates
    (hook : ArenaState → String → Except PyError ArenaState)
    (st : ArenaState) (a : String) :
    arenaRegister hook st a = hook st a ∧
    arenaRegister (fun s _ => Except.ok s) st a = Except.ok st :=
  ⟨rfl, rfl⟩

/-! ### Agent queries and publish -/

/-- `Agent.perceive` (core.py 242-251): the body is `self._perceive(state)`
with no `return` statement, so the method evaluates the hook, discards its
result, and returns Python None (`Option.none`; a returned value would be
`some`). -/
def agentPerceive {σ ρ : Type} (hook : σ → ρ) (state : σ) : Option ρ :=
  let _ := hook state
  none

/-- `Agent.policy` (core.py 253-258): the body is
`self._policy(representation)` with no `return` statement — the hook's
action value is discarded and the method returns None. -/
def agentPolicy {ρ α : Type} (hook : ρ → α) (representation : ρ) : Option α :=
  let _ := hook representation
  none

/-- C4 at the failing input: with an identity `_perceive` hook on state 42
and a successor `_policy` hook on representation 7, both public methods
return None rather than the hook's value — the synchronous return
contract the claim states does not hold in the code. -/
theorem C4_perceive_policy_return_none :
    agentPerceive (fun n : Nat => n) 42 = none ∧
    agentPerceive (fun n : Nat => n) 42 ≠ some 42 ∧
    agentPolicy (fun n : Nat => n + 1) 7 = none ∧
    agentPolicy (fun n : Nat => n + 1) 7 ≠ some 8 := by
  exact ⟨rfl, by decide, rfl, by decide⟩

/-- `Agent.publish` (core.py 260-266): the method accepts variadic `*args`
but its body is `self._publish()` — the hook is invoked on the empty
argument tuple whatever was passed in.  The hook is modelled as a function
of the argument list it receives. -/
def agentPublish {μ π : Type} (args : List μ) (hook : List μ → π) : π :=
  hook []

/-- C10: `Agent.publish(*args)` invokes the `_publish` hook with no
arguments at all — the hook sees the empty argument list, and the result
is independent of whatever arguments the caller passed to `publish`. -/
theorem C10_publish_discards_args {μ π : Type} (args args₂ : List μ)
    (hook : List μ → π) :
    agentPublish args hook = hook [] ∧
    agentPublish args hook = agentPublish args₂ hook :=
  ⟨rfl, rfl⟩

/-! ### Game construction, attributes and `run` -/

/-- The attribute names ever assigned on a Game instance in the source:
`mailbox`, `episodes`, `arenas`, `agents` in `Game.__init__` (core.py
289-293) and `live` in `Game.live` (core.py 309).  No statement anywhere
assigns `self.arena`. -/
def gameInstanceAttrs : List String := ["mailbox", "episodes", "arenas", "agents", "live"]

/-- Attribute lookup `self.<name>` on a Game instance: succeeds for the
attributes assigned in the source and raises `AttributeError` for any
other name.  `Game.__init__` (core.py 301) and `Game.run` (core.py 356)
both read `self.arena`. -/
def gameGetAttr (name : String) : Except PyError Unit :=
  if name ∈ gameInstanceAttrs then Except.ok () else Except.error (PyError.attributeError name)

/-- The arena loop of `Game.__init__` (core.py 295-301): for each arena in
order, `arena.games.append(self)` appends the game to that arena's game
registry; then the inner loop over `self.agents` runs, whose body
evaluates `self.arena.register(agent)` — the attribute read `self.arena`
raises `AttributeError` on its first evaluation (see `gameGetAttr`),
aborting construction.  With no agents the inner body never runs and the
outer loop continues.  Returns the arena states at the moment the loop
finishes or the exception propagates, paired with that exception. -/
def gameInitLoop (g : String) (agents : List String) :
    List ArenaState → List ArenaState × Option PyError
  | [] => ([], none)
  | ar :: rest =>
    let ar₂ : ArenaState := { ar with games := ar.games ++ [g] }
    match agents with
    | [] =>
      let res := gameInitLoop g agents rest
      (ar₂ :: res.1, res.2)
    | _ :: _ =>
      match gameGetAttr "arena" with
      | Except.error e => (ar₂ :: rest, some e)
      | Except.ok _ => (ar₂ :: rest, some PyError.notImplementedError)

/-- C3 at the failing input: constructing a Game "g" over two empty arenas
and agents ["ag1", "ag2"] appends the game to the first arena's game
registry only, then raises `AttributeError` for `self.arena`; no agent is
registered in any arena's agent registry and the second arena's game
registry stays empty — not the full wiring the claim states. -/
theorem C3_game_init_attribute_error :
    gameGetAttr "arena" = Except.error (PyError.attributeError "arena") ∧
    gameInitLoop "g" ["ag1", "ag2"] [⟨[], []⟩, ⟨[], []⟩] =
      ([⟨[], ["g"]⟩, ⟨[], []⟩], some (PyError.attributeError "arena")) ∧
    ∀ ar ∈ (gameInitLoop "g" ["ag1", "ag2"] [⟨[], []⟩, ⟨[], []⟩]).1,
      "ag1" ∉ ar.agents ∧ "ag2" ∉ ar.agents := by
  refine ⟨rfl, rfl, ?_⟩
  decide

/-- The effect of `Game.run(episodes)` (core.py 343-356) on the episode
counter: the body is `self.live()` followed by `self.arena.start()` and
contains no assignment, in particular none to `self.episodes` — the
`episodes` parameter is never used. -/
def gameRunEpisodesAfter (counter : Nat) (episodes : Nat) : Nat := counter

/-- C6 at the failing input: on a freshly constructed Game
(`self.episodes = 0`, core.py 290), `run(5)` leaves the episode counter
at 0 rather than setting it to 5, and the one statement that touches an
arena reads the nonexistent attribute `self.arena` (raising
`AttributeError`) instead of starting every owned arena — after first
entering the Game's own `live()` receive loop. -/
theorem C6_run_divergence :
    gameRunEpisodesAfter 0 5 = 0 ∧
    gameRunEpisodesAfter 0 5 ≠ 5 ∧
    "arena" ∉ gameInstanceAttrs ∧
    gameGetAttr "arena" = Except.error (PyError.attributeError "arena") := by
  refine ⟨rfl, by decide, by decide, rfl⟩

/-! ### Poison-pill propagation from an ArenaThread -/

/-- Python 2 semantics of calling `.iteritems()` on a list: list objects
have no `iteritems` attribute, so the call raises `AttributeError`.
`Arena.__init__` (core.py 70-71) initialises `self.agents` and
`self.games` as plain lists, and `ArenaThread.__init__` (threadactors.py
114-116) leaves them unchanged. -/
def listIteritems {α β : Type} (l : List α) : Except PyError (List β) :=
  Except.error (PyError.attributeError "iteritems")

/-- One propagation loop of the `except PoisonPill` block (threadactors.py
129-132): for each `(name, actor)` pair, `self.publish(actor, self,
PoisonPill())` is `Arena.publish` → `self._publish(...)` (core.py
138-146), which under the default `_publish` hook (core.py 163) raises
`NotImplementedError` on the first iteration; nothing is ever enqueued
into any mailbox by the substrate.  Returns the names of actors whose
mailbox received a pill, with the error aborting the loop, if any. -/
def pillPublishLoop (entries : List (String × String)) : List String × Option PyError :=
  match entries with
  | [] => ([], none)
  | _ :: _ => ([], some PyError.notImplementedError)

/-- The `except PoisonPill` block of `ArenaThread.live` (threadactors.py
128-133): first `self.agents.iteritems()` is evaluated (raising, since
the registry is a list), then — were it to yield pairs — the agent
publish loop, then the same for `self.games`.  Returns the names of
actors whose mailbox received a `PoisonPill`, paired with the exception
that escapes the block, if any. -/
def arenaThreadPillPropagation (agents games : List String) : List String × Option PyError :=
  match (listIteritems agents : Except PyError (List (String × String))) with
  | Except.error e => ([], some e)
  | Except.ok entries =>
    match pillPublishLoop entries with
    | (sent, some e) => (sent, some e)
    | (sent, none) =>
      match (listIteritems games : Except PyError (List (String × String))) with
      | Except.error e => (sent, some e)
      | Except.ok gentries =>
        let res := pillPublishLoop gentries
        (sent ++ res.1, res.2)

/-- C1 at the failing input: an ArenaThread with registered agents
["a1", "a2"] and games ["g1"] that accepts a PoisonPill runs the
propagation block, which immediately raises `AttributeError` for
`iteritems` (the registries are lists) — zero PoisonPills reach any
agent's or game's mailbox, not one each as the claim states, and the
loop exits via that uncaught error rather than a clean termination. -/
theorem C1_pill_propagation_failure :
    arenaThreadPillPropagation ["a1", "a2"] ["g1"] =
      ([], some (PyError.attributeError "iteritems")) ∧
    (arenaThreadPillPropagation ["a1", "a2"] ["g1"]).1 = [] := by
  exact ⟨rfl, rfl⟩

end Lanista
